import Mathlib

/-!
Verification of the Itinerary repository's request pipeline.

The embedding follows the source files:
* `src/app/api/plan/route.ts` — typed orchestrator (`POST_route`, `GET` probe,
  `isRecord`, `isItineraryJson`);
* `src/unnamed/part_000` — untyped orchestrator variant (`POST_part000`),
  identical except that parsed candidates are checked only for JS truthiness,
  never for shape, and the catch-branch error message falls back to
  "request failed" when the exception message is empty/falsy;
* `src/app/page.tsx` — client-side `validate` and the validation gate at the
  top of `onPlan`.

Upstream HTTP traffic is modelled by an oracle `env : Nat → Upstream` giving
the outcome of the n-th outbound fetch of a run, and JSON.parse by an abstract
`parse : String → Option Json` (`none` = the parse throws). `Date.getTime` on
a date string is likewise an abstract `getTime : String → Int` parameter.
-/

namespace Itinerary

/-- JSON values (numbers restricted to integers; no claim depends on
non-integral numbers). Objects are association lists. -/
inductive Json where
  | null : Json
  | bool (b : Bool) : Json
  | num (n : Int) : Json
  | str (s : String) : Json
  | arr (elems : List Json) : Json
  | obj (fields : List (String × Json)) : Json

/-- JS property access `x[k]` on a JSON value: defined (some) only on objects;
`undefined` is modelled as `none`. -/
def Json.getField : Json → String → Option Json
  | .obj fields, k => fields.lookup k
  | _, _ => none

/-- route.ts `isRecord`: `typeof x === 'object' && x !== null`. In JS both
objects and arrays satisfy this test. -/
def isRecord : Json → Bool
  | .obj _ => true
  | .arr _ => true
  | _ => false

/-- `typeof v === 'string'` on an optional property value. -/
def typeofString : Option Json → Bool
  | some (.str _) => true
  | _ => false

/-- `Array.isArray(v)` on an optional property value. -/
def typeofArray : Option Json → Bool
  | some (.arr _) => true
  | _ => false

/-- route.ts `isItineraryJson`: destructure the five top-level fields and
check their types, rejecting at the first mismatch. -/
def isItineraryJson (x : Json) : Bool :=
  if !isRecord x then false
  else if !typeofString (x.getField "destination") then false
  else if !typeofString (x.getField "startDate") then false
  else if !typeofString (x.getField "endDate") then false
  else if !typeofArray (x.getField "days") then false
  else if !typeofArray (x.getField "generalTips") then false
  else true

/-- JS truthiness of a JSON value: `null`, `false`, `0` and `""` are falsy,
everything else (all objects and arrays included) is truthy. part_000's
`if (!itineraryJson)` tests exactly this. -/
def jsTruthy : Json → Bool
  | .null => false
  | .bool b => b
  | .num n => n != 0
  | .str s => s != ""
  | .arr _ => true
  | .obj _ => true

/-- Body of a resolved fetch response: either it JSON-parses and the text at
`choices[0].message.content ?? ""` is `content`, or `.json()` rejects with
message `msg`. -/
inductive Body where
  | text (content : String) : Body
  | malformed (msg : String) : Body

/-- Outcome of one outbound fetch: the promise resolves to a response
(`ok`/`status`/`detail` for `.text()`, plus the body), or rejects with an
error (`isAbort` marks `AbortError`, i.e. the shared deadline firing). -/
inductive Upstream where
  | resp (ok : Bool) (status : Nat) (detail : String) (body : Body) : Upstream
  | reject (isAbort : Bool) (msg : String) : Upstream

/-- Which of the three possible outbound completion calls was issued. -/
inductive CallKind where
  | initialJson : CallKind
  | repair : CallKind
  | markdown : CallKind
deriving DecidableEq

/-- Value returned by the POST handler: a 200 JSON body
`\x7b itineraryJson, itineraryMarkdown, note? \x7d`, or an error body with an
HTTP status. -/
inductive PlanResult where
  | ok (itineraryJson : Option Json) (itineraryMarkdown : String)
      (note : Option String) : PlanResult
  | err (status : Nat) (error : String) (detail : Option String) : PlanResult

/-- The structured document of a result (`null`/absent on error). -/
def PlanResult.itinJson : PlanResult → Option Json
  | .ok j _ _ => j
  | .err _ _ _ => none

/-- Whether the result is an error response. -/
def PlanResult.isErr : PlanResult → Bool
  | .ok _ _ _ => false
  | .err _ _ _ => true

/-- `d?.choices?.[0]?.message?.content ?? ""` after `.json().catch(() => null)`:
a malformed body yields `null`, hence content `""`. -/
def bodyContent : Body → String
  | .text c => c
  | .malformed _ => ""

/-- Whitespace in the sense of JS `String.prototype.trim` (restricted to the
ASCII whitespace characters, the only ones at play here). -/
def isWsChar (c : Char) : Bool :=
  c == ' ' || c == '\t' || c == '\n' || c == '\r'

/-- JS `s.trim()`: strip leading and trailing whitespace. -/
def jsTrim (s : String) : String :=
  ⟨((s.data.dropWhile isWsChar).reverse.dropWhile isWsChar).reverse⟩

/-- The literal placeholder markdown used when the second call fails. -/
def mdPlaceholder : String :=
  "## Itinerary\n\n(Generated from JSON. Markdown generation failed, but JSON is available.)"

/-- route.ts lines 100-126 (identically part_000 lines 77-104): the markdown
phase, given the accepted document `j`. The fetch rejection and the non-ok
response both degrade to the placeholder; an ok response yields the trimmed
extracted content. `idx` is the index of this call in the run. -/
def mdPhase (env : Nat → Upstream) (idx : Nat) (j : Json)
    (calls : List CallKind) : PlanResult × List CallKind :=
  match env idx with
  | .reject _ _ => (.ok (some j) mdPlaceholder none, calls ++ [.markdown])
  | .resp ok _ _ body =>
    if ok then (.ok (some j) (jsTrim (bodyContent body)) none, calls ++ [.markdown])
    else (.ok (some j) mdPlaceholder none, calls ++ [.markdown])

/-- route.ts line 95 (= part_000 line 73): the degraded fallback
`\x7b itineraryJson: null, itineraryMarkdown: raw1?.trim() || "", note \x7d`.
Since `"".trim = ""`, the `|| ""` coalescing is the identity and the markdown
is exactly the trimmed raw first-call content. -/
def degradedResult (raw1 : String) : PlanResult × List CallKind :=
  (.ok none (jsTrim raw1) (some "JSON parse failed"), [.initialJson, .repair])

/-- The repair block (route.ts lines 68-97, part_000 lines 48-75),
parameterized by the acceptance test applied to a successfully parsed repair
candidate (`isItineraryJson` in route.ts, `jsTruthy` in part_000). The repair
fetch carries `.catch(() => null)`, so any rejection — the deadline abort
included — falls through to the degraded fallback. -/
def repairPhase (accept : Json → Bool) (parse : String → Option Json)
    (env : Nat → Upstream) (raw1 : String) : PlanResult × List CallKind :=
  match env 1 with
  | .reject _ _ => degradedResult raw1
  | .resp rok _ _ rbody =>
    if rok then
      match parse (bodyContent rbody) with
      | some j => if accept j then mdPhase env 2 j [.initialJson, .repair]
                  else degradedResult raw1
      | none => degradedResult raw1
    else degradedResult raw1

/-- A destructured request-body field is falsy when absent or empty. -/
def falsyField : Option String → Bool
  | none => true
  | some s => s == ""

/-- route.ts line 24: `if (!destination || !startDate || !endDate)`. -/
def requiredMissing (destination startDate endDate : Option String) : Bool :=
  falsyField destination || falsyField startDate || falsyField endDate

/-- The POST handler of `src/app/api/plan/route.ts` (lines 22-132), as a
function of the abstract JSON parser, the upstream oracle and the request
body. Returns the response together with the list of outbound completion
calls issued. -/
def POST_route (parse : String → Option Json) (env : Nat → Upstream)
    (destination startDate endDate : Option String) :
    PlanResult × List CallKind :=
  if requiredMissing destination startDate endDate then
    (.err 400 "destination, startDate, endDate required" none, [])
  else
    match env 0 with
    | .reject isAbort msg =>
      (.err 504 (if isAbort then "timeout" else msg) none, [.initialJson])
    | .resp ok status detail body =>
      if !ok then
        (.err 502 ("Groq " ++ toString status) (some detail), [.initialJson])
      else
        match body with
        | .malformed msg => (.err 504 msg none, [.initialJson])
        | .text raw1 =>
          match parse raw1 with
          | some parsed =>
            if isItineraryJson parsed then mdPhase env 1 parsed [.initialJson]
            else repairPhase isItineraryJson parse env raw1
          | none => repairPhase isItineraryJson parse env raw1

/-- The POST handler of `src/unnamed/part_000` (lines 6-110): identical to
`POST_route` except that (a) a successfully parsed candidate is accepted
whenever it is JS-truthy — no shape validation — and (b) the catch branch
reads `e?.message || "request failed"`, so an empty exception message falls
back to "request failed". -/
def POST_part000 (parse : String → Option Json) (env : Nat → Upstream)
    (destination startDate endDate : Option String) :
    PlanResult × List CallKind :=
  if requiredMissing destination startDate endDate then
    (.err 400 "destination, startDate, endDate required" none, [])
  else
    match env 0 with
    | .reject isAbort msg =>
      (.err 504 (if isAbort then "timeout"
                 else if msg == "" then "request failed" else msg) none,
       [.initialJson])
    | .resp ok status detail body =>
      if !ok then
        (.err 502 ("Groq " ++ toString status) (some detail), [.initialJson])
      else
        match body with
        | .malformed msg =>
          (.err 504 (if msg == "" then "request failed" else msg) none,
           [.initialJson])
        | .text raw1 =>
          match parse raw1 with
          | some parsed =>
            if jsTruthy parsed then mdPhase env 1 parsed [.initialJson]
            else repairPhase jsTruthy parse env raw1
          | none => repairPhase jsTruthy parse env raw1

/-- The GET health-check handler (route.ts lines 135-145, identically
part_000 lines 113-123): `\x7b ok: r.ok \x7d`, and `false` if the fetch
throws. Totality of this function is the never-throws guarantee. -/
def GET_health : Upstream → Bool
  | .resp ok _ _ _ => ok
  | .reject _ _ => false

/-- page.tsx: `1000*60*60*24`, milliseconds per day. -/
def msPerDay : Int := 1000 * 60 * 60 * 24

/-- JS `Math.ceil(a / b)` for integers `a` and positive `b` (exact in the
magnitudes at play): ceiling division, via `-((-a) / b)` with floor
division. -/
def jsCeilDiv (a b : Int) : Int := -(Int.ediv (-a) b)

/-- JS `<` on strings: lexicographic comparison by code unit, here on the
character lists of the two strings. -/
def charListLt : List Char → List Char → Bool
  | [], [] => false
  | [], _ :: _ => true
  | _ :: _, [] => false
  | a :: as, b :: bs =>
    if a < b then true else if b < a then false else charListLt as bs

/-- `a < b` for JS strings. -/
def jsStrLt (a b : String) : Bool := charListLt a.data b.data

/-- page.tsx `validate` (lines 90-98), with `new Date(s).getTime()` as the
abstract `getTime`. Returns `none` for "valid" and the error message
otherwise. The comparison `end < start` is JS lexicographic string order,
`jsStrLt`. -/
def validate (getTime : String → Int)
    (destination start end_ : String) : Option String :=
  let dest := jsTrim destination
  if dest.length < 2 ∨ dest.length > 60 then
    some "Destination must be 2–60 characters."
  else if start = "" ∨ end_ = "" then
    some "Provide both start and end dates."
  else if jsStrLt end_ start then
    some "End date must be after start date."
  else
    let len := jsCeilDiv (getTime end_ - getTime start) msPerDay + 1
    if len > 14 then some "Trip length must be 14 days or less."
    else none

/-- Outcome of the validation gate at the top of page.tsx `onPlan`. -/
structure PlanAttempt where
  note : Option String
  requestSent : Bool

/-- page.tsx `onPlan` lines 100-105: run `validate`; on an error set the note
and return without fetching, otherwise issue the generation request. -/
def onPlanGate (getTime : String → Int)
    (destination start end_ : String) : PlanAttempt :=
  match validate getTime destination start end_ with
  | some err => { note := some err, requestSent := false }
  | none => { note := none, requestSent := true }

/-- Result agreement in the sense of the variant-equivalence claim: same
success/error classification (status for errors), and the same
itineraryJson, itineraryMarkdown and note for successes. The error-message
text is not part of the comparison. -/
def resultAgrees : PlanResult → PlanResult → Prop
  | .ok j1 m1 n1, .ok j2 m2 n2 => j1 = j2 ∧ m1 = m2 ∧ n1 = n2
  | .err s1 _ _, .err s2 _ _ => s1 = s2
  | _, _ => False

/-- The markdown call "fails, returns a non-success status, or throws":
the fetch rejects, or resolves with a non-ok response. -/
def mdFails (u : Upstream) : Prop :=
  (∃ a m, u = Upstream.reject a m) ∨ ∃ st det b, u = Upstream.resp false st det b

/-! Concrete inputs used by the closed witness and counterexample theorems. -/

/-- A shape-valid itinerary document. -/
def jDoc : Json :=
  .obj [("destination", .str "Tokyo"), ("startDate", .str "2025-05-01"),
        ("endDate", .str "2025-05-05"), ("days", .arr []), ("generalTips", .arr [])]

/-- A JSON value that is truthy but fails the shape check. -/
def jBad : Json := .obj [("a", .num 1)]

/-- A parser on which every string fails to parse. -/
def parseNone : String → Option Json := fun _ => none

/-- A parser mapping the content "alpha" to the valid document `jDoc`. -/
def parseDoc : String → Option Json :=
  fun s => if s = "alpha" then some jDoc else none

/-- A parser mapping the content "alpha" to the shape-invalid value `jBad`. -/
def parseBad : String → Option Json :=
  fun s => if s = "alpha" then some jBad else none

/-- A parser mapping the content "beta" to the non-record value `5`. -/
def parseNum : String → Option Json :=
  fun s => if s = "beta" then some (Json.num 5) else none

/-- First call ok with content " x "; second call non-success. -/
def envRawWs : Nat → Upstream := fun n =>
  if n = 0 then .resp true 200 "" (.text " x ")
  else .resp false 500 "" (.text "")

/-- First call ok with content "oops"; second call aborted by the deadline. -/
def envAbortRepair : Nat → Upstream := fun n =>
  if n = 0 then .resp true 200 "" (.text "oops")
  else .reject true "The operation was aborted"

/-- Every call aborted by the deadline. -/
def envAbortAll : Nat → Upstream := fun _ => .reject true "The operation was aborted"

/-- First call ok with content "alpha"; second call ok with content "mdtext". -/
def envAlphaMd : Nat → Upstream := fun n =>
  if n = 0 then .resp true 200 "" (.text "alpha")
  else .resp true 200 "" (.text "mdtext")

/-- First call ok with content "alpha"; second call rejected (network error). -/
def envAlphaMdFail : Nat → Upstream := fun n =>
  if n = 0 then .resp true 200 "" (.text "alpha")
  else .reject false "network down"

/-- First call ok with content "beta"; later calls ok with content "gamma". -/
def envBeta : Nat → Upstream := fun n =>
  if n = 0 then .resp true 200 "" (.text "beta")
  else .resp true 200 "" (.text "gamma")

/-- Every call answered with a 503 and detail text. -/
def envReject503 : Nat → Upstream :=
  fun _ => .resp false 503 "rate limited" (.text "")

/-- A concrete `Date.getTime` table for two dates four days apart. -/
def getTimeW : String → Int := fun s =>
  if s = "2025-05-05" then 1746403200000
  else if s = "2025-05-01" then 1746057600000
  else 0

/-! ## Helper lemmas -/

theorem bool_guard (c x : Bool) : (if !c then false else x) = (c && x) := by
  cases c <;> simp

theorem isItineraryJson_eq (j : Json) : isItineraryJson j =
    (isRecord j &&
     (typeofString (j.getField "destination") &&
      (typeofString (j.getField "startDate") &&
       (typeofString (j.getField "endDate") &&
        (typeofArray (j.getField "days") &&
         typeofArray (j.getField "generalTips")))))) := by
  simp only [isItineraryJson, bool_guard, Bool.and_true]

theorem typeofString_iff (v : Option Json) :
    typeofString v = true ↔ ∃ s, v = some (Json.str s) := by
  cases v with
  | none => simp [typeofString]
  | some j => cases j <;> simp [typeofString]

theorem typeofArray_iff (v : Option Json) :
    typeofArray v = true ↔ ∃ l, v = some (Json.arr l) := by
  cases v with
  | none => simp [typeofArray]
  | some j => cases j <;> simp [typeofArray]

theorem getField_isRecord {j : Json} {k : String} {v : Json}
    (h : j.getField k = some v) : isRecord j = true := by
  cases j <;> first | rfl | simp [Json.getField] at h

theorem mdPhase_calls (env : Nat → Upstream) (idx : Nat) (j : Json)
    (calls : List CallKind) :
    (mdPhase env idx j calls).2 = calls ++ [CallKind.markdown] := by
  unfold mdPhase
  cases env idx with
  | reject a m => rfl
  | resp ok st det b => cases ok <;> rfl

theorem repairPhase_calls (accept : Json → Bool) (parse : String → Option Json)
    (env : Nat → Upstream) (raw : String) :
    (repairPhase accept parse env raw).2 = [CallKind.initialJson, CallKind.repair] ∨
    (repairPhase accept parse env raw).2 =
      [CallKind.initialJson, CallKind.repair, CallKind.markdown] := by
  unfold repairPhase
  cases env 1 with
  | reject a m => left; rfl
  | resp rok st det rbody =>
    cases rok with
    | false => left; rfl
    | true =>
      simp only [if_true]
      cases hp : parse (bodyContent rbody) with
      | none => left; rfl
      | some j =>
        cases ha : accept j with
        | false => left; simp [ha, degradedResult]
        | true => right; simp [ha, mdPhase_calls]

theorem repair_mem_repairPhase (accept : Json → Bool) (parse : String → Option Json)
    (env : Nat → Upstream) (raw : String) :
    CallKind.repair ∈ (repairPhase accept parse env raw).2 := by
  rcases repairPhase_calls accept parse env raw with h | h <;> rw [h] <;> simp

/-! ## Claim theorems -/

/-- C6: when the initial JSON-generation call returns a non-success response,
the orchestrator immediately returns a 502 error carrying the upstream status
and detail text, and makes neither a repair call nor a markdown call. -/
theorem c6_upstream_rejected (parse : String → Option Json) (env : Nat → Upstream)
    (d s e : String) (hd : d ≠ "") (hs : s ≠ "") (he : e ≠ "")
    (status : Nat) (detail : String) (body : Body)
    (h0 : env 0 = .resp false status detail body) :
    POST_route parse env (some d) (some s) (some e) =
      (.err 502 ("Groq " ++ toString status) (some detail), [.initialJson]) := by
  simp [POST_route, requiredMissing, falsyField, hd, hs, he, h0]

/-- C6 witness: a concrete 503 with detail "rate limited". -/
theorem c6_upstream_rejected_witness :
    POST_route parseNone envReject503
        (some "Tokyo") (some "2025-05-01") (some "2025-05-05") =
      (.err 502 "Groq 503" (some "rate limited"), [.initialJson]) :=
  c6_upstream_rejected parseNone envReject503 "Tokyo" "2025-05-01" "2025-05-05"
    (by decide) (by decide) (by decide) 503 "rate limited" (.text "") rfl

/-- C9: the connectivity probe is a total boolean function (it never
propagates an exception), reporting true exactly when the model-listing fetch
resolves with a success status, and false on any non-success response or
transport failure. -/
theorem c9_probe_boolean : ∀ u : Upstream,
    GET_health u = true ↔ ∃ status detail body, u = Upstream.resp true status detail body := by
  intro u
  cases u with
  | resp ok status detail body => cases ok <;> simp [GET_health]
  | reject a m => simp [GET_health]

/-- C2: when the first call succeeds and its content parses to a document
passing the shape check, the orchestrator returns that parsed document
unchanged as itineraryJson, the run is not an error, and the calls issued are
the initial call and the markdown call only — no repair call. -/
theorem c2_valid_first_call (parse : String → Option Json) (env : Nat → Upstream)
    (d s e : String) (hd : d ≠ "") (hs : s ≠ "") (he : e ≠ "")
    (status : Nat) (detail raw : String) (j : Json)
    (h0 : env 0 = .resp true status detail (.text raw))
    (hp : parse raw = some j) (hv : isItineraryJson j = true) :
    (POST_route parse env (some d) (some s) (some e)).1.itinJson = some j ∧
    (POST_route parse env (some d) (some s) (some e)).1.isErr = false ∧
    (POST_route parse env (some d) (some s) (some e)).2 =
      [CallKind.initialJson, CallKind.markdown] := by
  have hrun : POST_route parse env (some d) (some s) (some e) =
      mdPhase env 1 j [.initialJson] := by
    simp [POST_route, requiredMissing, falsyField, hd, hs, he, h0, hp, hv]
  rw [hrun]
  cases h1 : env 1 with
  | reject a m => simp [mdPhase, h1, PlanResult.itinJson, PlanResult.isErr]
  | resp ok st det b =>
    cases ok <;> simp [mdPhase, h1, PlanResult.itinJson, PlanResult.isErr]

/-- C2 witness: content "alpha" parsing to the valid document `jDoc`. -/
theorem c2_valid_first_call_witness :
    (POST_route parseDoc envAlphaMd
        (some "Tokyo") (some "2025-05-01") (some "2025-05-05")).1.itinJson = some jDoc ∧
    (POST_route parseDoc envAlphaMd
        (some "Tokyo") (some "2025-05-01") (some "2025-05-05")).1.isErr = false ∧
    (POST_route parseDoc envAlphaMd
        (some "Tokyo") (some "2025-05-01") (some "2025-05-05")).2 =
      [CallKind.initialJson, CallKind.markdown] :=
  c2_valid_first_call parseDoc envAlphaMd "Tokyo" "2025-05-01" "2025-05-05"
    (by decide) (by decide) (by decide) 200 "" "alpha" jDoc rfl
    (by simp [parseDoc]) (by decide)

/-- C4: the structural validation accepts a parsed JSON value exactly when
destination, startDate and endDate are strings and days and generalTips are
arrays; and a candidate that parses but fails the shape check — a type
mismatch, not a syntax error — is treated as unparsed, triggering the repair
call. -/
theorem c4_shape_validation :
    (∀ j : Json, isItineraryJson j = true ↔
      ((∃ s, j.getField "destination" = some (Json.str s)) ∧
       (∃ s, j.getField "startDate" = some (Json.str s)) ∧
       (∃ s, j.getField "endDate" = some (Json.str s)) ∧
       (∃ l, j.getField "days" = some (Json.arr l)) ∧
       (∃ l, j.getField "generalTips" = some (Json.arr l)))) ∧
    (∀ (parse : String → Option Json) (env : Nat → Upstream)
       (d s e : String) (status : Nat) (detail raw : String) (j : Json),
      d ≠ "" → s ≠ "" → e ≠ "" →
      env 0 = Upstream.resp true status detail (Body.text raw) →
      parse raw = some j → isItineraryJson j = false →
      CallKind.repair ∈ (POST_route parse env (some d) (some s) (some e)).2) := by
  constructor
  · intro j
    constructor
    · intro h
      rw [isItineraryJson_eq] at h
      simp only [Bool.and_eq_true, typeofString_iff, typeofArray_iff] at h
      exact ⟨h.2.1, h.2.2.1, h.2.2.2.1, h.2.2.2.2.1, h.2.2.2.2.2⟩
    · rintro ⟨⟨s1, h1⟩, ⟨s2, h2⟩, ⟨s3, h3⟩, ⟨l4, h4⟩, ⟨l5, h5⟩⟩
      rw [isItineraryJson_eq]
      simp only [Bool.and_eq_true, typeofString_iff, typeofArray_iff]
      exact ⟨getField_isRecord h1, ⟨s1, h1⟩, ⟨s2, h2⟩, ⟨s3, h3⟩, ⟨l4, h4⟩, ⟨l5, h5⟩⟩
  · intro parse env d s e status detail raw j hd hs he h0 hp hv
    have hrun : POST_route parse env (some d) (some s) (some e) =
        repairPhase isItineraryJson parse env raw := by
      simp [POST_route, requiredMissing, falsyField, hd, hs, he, h0, hp, hv]
    rw [hrun]
    exact repair_mem_repairPhase _ _ _ _

/-- C4 witness: the number 5 parses but fails the shape check, and the repair
call is issued. -/
theorem c4_shape_validation_witness :
    CallKind.repair ∈ (POST_route parseNum envBeta
      (some "Tokyo") (some "2025-05-01") (some "2025-05-05")).2 :=
  c4_shape_validation.2 parseNum envBeta "Tokyo" "2025-05-01" "2025-05-05"
    200 "" "beta" (Json.num 5) (by decide) (by decide) (by decide) rfl
    (by simp [parseNum]) (by decide)

/-- C1 (amended): when the first call succeeds with content that fails JSON
parsing or shape validation, exactly one repair call is issued; and when the
repair also fails to produce a shape-valid parse (it is rejected, non-ok, or
its content fails parse/validation), the result is a non-error response with
itineraryJson = null, itineraryMarkdown equal to the TRIMMED original
first-call content, and the note "JSON parse failed". -/
theorem c1_fallback_trimmed (parse : String → Option Json) (env : Nat → Upstream)
    (d s e : String) (hd : d ≠ "") (hs : s ≠ "") (he : e ≠ "")
    (status : Nat) (detail raw : String)
    (h0 : env 0 = .resp true status detail (.text raw))
    (hbad : ∀ j, parse raw = some j → isItineraryJson j = false) :
    ((POST_route parse env (some d) (some s) (some e)).2.count CallKind.repair = 1) ∧
    ((∀ rok rstatus rdetail rbody, env 1 = Upstream.resp rok rstatus rdetail rbody →
        rok = true → ∀ j, parse (bodyContent rbody) = some j →
        isItineraryJson j = false) →
      (POST_route parse env (some d) (some s) (some e)).1 =
        .ok none (jsTrim raw) (some "JSON parse failed")) := by
  have hrun : POST_route parse env (some d) (some s) (some e) =
      repairPhase isItineraryJson parse env raw := by
    cases hp : parse raw with
    | none => simp [POST_route, requiredMissing, falsyField, hd, hs, he, h0, hp]
    | some j =>
      simp [POST_route, requiredMissing, falsyField, hd, hs, he, h0, hp, hbad j hp]
  rw [hrun]
  constructor
  · rcases repairPhase_calls isItineraryJson parse env raw with h | h <;>
      rw [h] <;> decide
  · intro hrep
    unfold repairPhase
    cases h1 : env 1 with
    | reject a m => rfl
    | resp rok rst rdet rbody =>
      cases rok with
      | false => rfl
      | true =>
        simp only [if_true]
        cases hp : parse (bodyContent rbody) with
        | none => rfl
        | some j =>
          have : isItineraryJson j = false := hrep true rst rdet rbody h1 rfl j hp
          simp [this, degradedResult]

/-- C1 witness: unparseable content " x " and a failing repair call yield the
degraded fallback with trimmed markdown "x". -/
theorem c1_fallback_trimmed_witness :
    ((POST_route parseNone envRawWs
        (some "Tokyo") (some "2025-05-01") (some "2025-05-05")).2.count
      CallKind.repair = 1) ∧
    (POST_route parseNone envRawWs
        (some "Tokyo") (some "2025-05-01") (some "2025-05-05")).1 =
      .ok none "x" (some "JSON parse failed") := by
  have h := c1_fallback_trimmed parseNone envRawWs "Tokyo" "2025-05-01" "2025-05-05"
    (by decide) (by decide) (by decide) 200 "" " x " rfl
    (fun j hp => by simp [parseNone] at hp)
  have h2 := h.2 (fun rok rst rdet rbody h1 hok j hp => by simp [parseNone] at hp)
  rw [h2]
  exact ⟨h.1, rfl⟩

/-- C1 counterexample: the claim says the fallback markdown equals the
original raw first-call content, but the code trims it: for raw content
" x " the fallback markdown is "x". -/
theorem c1_counterexample :
    (POST_route parseNone envRawWs
        (some "Tokyo") (some "2025-05-01") (some "2025-05-05")).1 =
      PlanResult.ok none "x" (some "JSON parse failed") ∧
    ("x" : String) ≠ " x " := by
  constructor
  · rfl
  · decide

/-- C3 (amended): a deadline abort while the INITIAL JSON call is in flight
yields the distinct timeout classification (504 "timeout", not the 502
UpstreamRejected shape and not a fallback); but a deadline abort during the
repair call is swallowed by its catch handler and yields the degraded
fallback result, not a timeout error. -/
theorem c3_timeout_classification (parse : String → Option Json)
    (env : Nat → Upstream) (d s e : String)
    (hd : d ≠ "") (hs : s ≠ "") (he : e ≠ "") :
    (∀ msg, env 0 = Upstream.reject true msg →
      POST_route parse env (some d) (some s) (some e) =
        (.err 504 "timeout" none, [CallKind.initialJson])) ∧
    (∀ (status : Nat) (detail raw msg : String),
      env 0 = Upstream.resp true status detail (Body.text raw) →
      (∀ j, parse raw = some j → isItineraryJson j = false) →
      env 1 = Upstream.reject true msg →
      (POST_route parse env (some d) (some s) (some e)).1 =
        .ok none (jsTrim raw) (some "JSON parse failed")) := by
  constructor
  · intro msg h0
    simp [POST_route, requiredMissing, falsyField, hd, hs, he, h0]
  · intro status detail raw msg h0 hbad h1
    have hrun : POST_route parse env (some d) (some s) (some e) =
        repairPhase isItineraryJson parse env raw := by
      cases hp : parse raw with
      | none => simp [POST_route, requiredMissing, falsyField, hd, hs, he, h0, hp]
      | some j =>
        simp [POST_route, requiredMissing, falsyField, hd, hs, he, h0, hp, hbad j hp]
    rw [hrun]
    unfold repairPhase
    rw [h1]
    rfl

/-- C3 witness: an abort on the very first call gives the 504 timeout error,
and an abort during the repair call gives the degraded fallback. -/
theorem c3_timeout_classification_witness :
    POST_route parseNone envAbortAll
        (some "Tokyo") (some "2025-05-01") (some "2025-05-05") =
      (.err 504 "timeout" none, [CallKind.initialJson]) ∧
    (POST_route parseNone envAbortRepair
        (some "Tokyo") (some "2025-05-01") (some "2025-05-05")).1 =
      .ok none "oops" (some "JSON parse failed") := by
  constructor
  · exact (c3_timeout_classification parseNone envAbortAll "Tokyo" "2025-05-01"
      "2025-05-05" (by decide) (by decide) (by decide)).1
      "The operation was aborted" rfl
  · have h := (c3_timeout_classification parseNone envAbortRepair "Tokyo"
      "2025-05-01" "2025-05-05" (by decide) (by decide) (by decide)).2
      200 "" "oops" "The operation was aborted" rfl
      (by intro j hp; simp [parseNone] at hp) rfl
    rw [h]
    rfl

/-- C3 counterexample: the claim says a deadline abort during the repair call
yields a timeout error, but the code returns the non-error degraded fallback:
with first-call content "oops" and the repair call aborted, the result is a
200 success body, not an error. -/
theorem c3_counterexample :
    (POST_route parseNone envAbortRepair
        (some "Tokyo") (some "2025-05-01") (some "2025-05-05")).1 =
      PlanResult.ok none "oops" (some "JSON parse failed") ∧
    (POST_route parseNone envAbortRepair
        (some "Tokyo") (some "2025-05-01") (some "2025-05-05")).1.isErr = false := by
  constructor
  · rfl
  · rfl

theorem mdPhase_fail (env : Nat → Upstream) (idx : Nat) (j : Json)
    (calls : List CallKind) (h : mdFails (env idx)) :
    (mdPhase env idx j calls).1 = PlanResult.ok (some j) mdPlaceholder none := by
  unfold mdPhase
  rcases h with ⟨a, m, hu⟩ | ⟨st, det, b, hu⟩ <;> simp [hu]

/-- C5: whenever a valid document is obtained (directly from the first call,
or through the repair call) and the markdown call fails — it returns a
non-success status or its fetch rejects/throws — the result still carries
that valid itineraryJson, with the non-empty placeholder markdown, and the
run succeeds (no error result). -/
theorem c5_markdown_degrades (parse : String → Option Json) (env : Nat → Upstream)
    (d s e : String) (j : Json)
    (hd : d ≠ "") (hs : s ≠ "") (he : e ≠ "")
    (H : (∃ status detail raw,
            env 0 = Upstream.resp true status detail (Body.text raw) ∧
            parse raw = some j ∧ isItineraryJson j = true ∧ mdFails (env 1)) ∨
         (∃ status detail raw rstatus rdetail rbody,
            env 0 = Upstream.resp true status detail (Body.text raw) ∧
            (∀ j0, parse raw = some j0 → isItineraryJson j0 = false) ∧
            env 1 = Upstream.resp true rstatus rdetail rbody ∧
            parse (bodyContent rbody) = some j ∧ isItineraryJson j = true ∧
            mdFails (env 2))) :
    (POST_route parse env (some d) (some s) (some e)).1 =
      PlanResult.ok (some j) mdPlaceholder none ∧ mdPlaceholder ≠ "" := by
  refine ⟨?_, by decide⟩
  rcases H with ⟨status, detail, raw, h0, hp, hv, hmd⟩ |
    ⟨status, detail, raw, rstatus, rdetail, rbody, h0, hbad, h1, hp, hv, hmd⟩
  · have hrun : POST_route parse env (some d) (some s) (some e) =
        mdPhase env 1 j [.initialJson] := by
      simp [POST_route, requiredMissing, falsyField, hd, hs, he, h0, hp, hv]
    rw [hrun]
    exact mdPhase_fail env 1 j _ hmd
  · have hrun : POST_route parse env (some d) (some s) (some e) =
        repairPhase isItineraryJson parse env raw := by
      cases hp0 : parse raw with
      | none => simp [POST_route, requiredMissing, falsyField, hd, hs, he, h0, hp0]
      | some j0 =>
        simp [POST_route, requiredMissing, falsyField, hd, hs, he, h0, hp0,
          hbad j0 hp0]
    rw [hrun]
    unfold repairPhase
    rw [h1]
    simp only [if_true, hp, hv]
    exact mdPhase_fail env 2 j _ hmd

/-- C5 witness: a valid document from the first call and a rejected markdown
call yield the document plus the placeholder markdown. -/
theorem c5_markdown_degrades_witness :
    (POST_route parseDoc envAlphaMdFail
        (some "Tokyo") (some "2025-05-01") (some "2025-05-05")).1 =
      PlanResult.ok (some jDoc) mdPlaceholder none ∧ mdPlaceholder ≠ "" :=
  c5_markdown_degrades parseDoc envAlphaMdFail "Tokyo" "2025-05-01" "2025-05-05"
    jDoc (by decide) (by decide) (by decide)
    (Or.inl ⟨200, "", "alpha", rfl, by simp [parseDoc], by decide,
      Or.inl ⟨false, "network down", rfl⟩⟩)

/-- C7: with a valid destination and both dates present, the validator
rejects with the date-order message when end < start; otherwise it rejects
with the trip-length message when the inclusive span (whole-day difference
plus one) exceeds 14, and accepts whenever that span lies in [1, 14]. -/
theorem c7_date_validation (getTime : String → Int) (destination start end_ : String)
    (hd2 : 2 ≤ (jsTrim destination).length) (hd60 : (jsTrim destination).length ≤ 60)
    (hs : start ≠ "") (he : end_ ≠ "") :
    (jsStrLt end_ start = true → validate getTime destination start end_ =
        some "End date must be after start date.") ∧
    (jsStrLt end_ start = false →
      (jsCeilDiv (getTime end_ - getTime start) msPerDay + 1 > 14 →
        validate getTime destination start end_ =
          some "Trip length must be 14 days or less.") ∧
      (1 ≤ jsCeilDiv (getTime end_ - getTime start) msPerDay + 1 →
        jsCeilDiv (getTime end_ - getTime start) msPerDay + 1 ≤ 14 →
        validate getTime destination start end_ = none)) := by
  have h1 : ¬ ((jsTrim destination).length < 2 ∨ (jsTrim destination).length > 60) := by
    omega
  have h2 : ¬ (start = "" ∨ end_ = "") := by simp [hs, he]
  refine ⟨fun hlt => ?_, fun hge => ⟨fun hspan => ?_, fun hlo hhi => ?_⟩⟩
  · simp [validate, h1, h2, hlt]
  · simp [validate, h1, h2, hge, hspan]
  · have hns : ¬ (jsCeilDiv (getTime end_ - getTime start) msPerDay + 1 > 14) := by
      omega
    simp [validate, h1, h2, hge, hns]

/-- C7 witness: "2025-05-01" to "2025-05-05" (span 5) with destination
"Tokyo" is accepted. -/
theorem c7_date_validation_witness :
    validate getTimeW "Tokyo" "2025-05-01" "2025-05-05" = none :=
  ((c7_date_validation getTimeW "Tokyo" "2025-05-01" "2025-05-05"
      (by decide) (by decide) (by decide) (by decide)).2
    (by decide)).2 (by decide) (by decide)

/-- C8: a destination whose trimmed length is below 2 or above 60 makes the
validator return the destination-length error, and the onPlan gate then sets
that note and returns without issuing the generation request. -/
theorem c8_destination_length (getTime : String → Int)
    (destination start end_ : String)
    (h : (jsTrim destination).length < 2 ∨ (jsTrim destination).length > 60) :
    validate getTime destination start end_ =
      some "Destination must be 2–60 characters." ∧
    (onPlanGate getTime destination start end_).requestSent = false ∧
    (onPlanGate getTime destination start end_).note =
      some "Destination must be 2–60 characters." := by
  have hv : validate getTime destination start end_ =
      some "Destination must be 2–60 characters." := by
    simp [validate, h]
  exact ⟨hv, by simp [onPlanGate, hv], by simp [onPlanGate, hv]⟩

/-- C8 witness: the one-character destination "A" is rejected and no request
is sent. -/
theorem c8_destination_length_witness :
    validate getTimeW "A" "2025-05-01" "2025-05-05" =
      some "Destination must be 2–60 characters." ∧
    (onPlanGate getTimeW "A" "2025-05-01" "2025-05-05").requestSent = false ∧
    (onPlanGate getTimeW "A" "2025-05-01" "2025-05-05").note =
      some "Destination must be 2–60 characters." :=
  c8_destination_length getTimeW "A" "2025-05-01" "2025-05-05" (by decide)

theorem isItineraryJson_isRecord {j : Json} (h : isItineraryJson j = true) :
    isRecord j = true := by
  cases hR : isRecord j with
  | true => rfl
  | false => unfold isItineraryJson at h; rw [hR] at h; simp at h

theorem isRecord_truthy {j : Json} (h : isRecord j = true) : jsTruthy j = true := by
  cases j <;> simp_all [isRecord, jsTruthy]

theorem accept_eq_of {j : Json} (Hj : jsTruthy j = true → isItineraryJson j = true) :
    isItineraryJson j = jsTruthy j := by
  cases ht : jsTruthy j with
  | true => exact Hj ht
  | false =>
    cases hv : isItineraryJson j with
    | false => rfl
    | true =>
      rw [isRecord_truthy (isItineraryJson_isRecord hv)] at ht
      exact ht

theorem repairPhase_accept_eq (parse : String → Option Json) (env : Nat → Upstream)
    (raw : String)
    (H : ∀ s j, parse s = some j → jsTruthy j = true → isItineraryJson j = true) :
    repairPhase isItineraryJson parse env raw = repairPhase jsTruthy parse env raw := by
  unfold repairPhase
  cases env 1 with
  | reject a m => rfl
  | resp rok st det rbody =>
    cases rok with
    | false => rfl
    | true =>
      cases hp : parse (bodyContent rbody) with
      | none => simp [hp]
      | some j =>
        have hj := accept_eq_of (H _ j hp)
        simp [hp, hj]

theorem resultAgrees_refl (r : PlanResult) : resultAgrees r r := by
  cases r <;> simp [resultAgrees]

theorem resultAgrees_err (s : Nat) (e1 e2 : String) (d1 d2 : Option String) :
    resultAgrees (.err s e1 d1) (.err s e2 d2) := rfl

/-- C10 (amended): the two POST variants agree — same classification, same
itineraryJson, same itineraryMarkdown and note, and the same call sequence —
on every run in which no candidate content parses to a JS-truthy value that
fails the shape check; they diverge otherwise, because part_000 performs no
shape validation. -/
theorem c10_variants_agree (parse : String → Option Json) (env : Nat → Upstream)
    (destination startDate endDate : Option String)
    (H : ∀ s j, parse s = some j → jsTruthy j = true → isItineraryJson j = true) :
    resultAgrees (POST_route parse env destination startDate endDate).1
        (POST_part000 parse env destination startDate endDate).1 ∧
    (POST_route parse env destination startDate endDate).2 =
        (POST_part000 parse env destination startDate endDate).2 := by
  cases hm : requiredMissing destination startDate endDate with
  | true =>
    have hA : POST_route parse env destination startDate endDate =
        (.err 400 "destination, startDate, endDate required" none, []) := by
      simp [POST_route, hm]
    have hB : POST_part000 parse env destination startDate endDate =
        (.err 400 "destination, startDate, endDate required" none, []) := by
      simp [POST_part000, hm]
    rw [hA, hB]
    exact ⟨resultAgrees_refl _, rfl⟩
  | false =>
    cases h0 : env 0 with
    | reject a m =>
      have hA : POST_route parse env destination startDate endDate =
          (.err 504 (if a then "timeout" else m) none, [.initialJson]) := by
        simp [POST_route, hm, h0]
      have hB : POST_part000 parse env destination startDate endDate =
          (.err 504 (if a then "timeout"
                     else if m == "" then "request failed" else m) none,
           [.initialJson]) := by
        simp [POST_part000, hm, h0]
      rw [hA, hB]
      exact ⟨resultAgrees_err _ _ _ _ _, rfl⟩
    | resp ok st det b =>
      cases ok with
      | false =>
        have hA : POST_route parse env destination startDate endDate =
            (.err 502 ("Groq " ++ toString st) (some det), [.initialJson]) := by
          simp [POST_route, hm, h0]
        have hB : POST_part000 parse env destination startDate endDate =
            (.err 502 ("Groq " ++ toString st) (some det), [.initialJson]) := by
          simp [POST_part000, hm, h0]
        rw [hA, hB]
        exact ⟨resultAgrees_refl _, rfl⟩
      | true =>
        cases b with
        | malformed m =>
          have hA : POST_route parse env destination startDate endDate =
              (.err 504 m none, [.initialJson]) := by
            simp [POST_route, hm, h0]
          have hB : POST_part000 parse env destination startDate endDate =
              (.err 504 (if m == "" then "request failed" else m) none,
               [.initialJson]) := by
            simp [POST_part000, hm, h0]
          rw [hA, hB]
          exact ⟨resultAgrees_err _ _ _ _ _, rfl⟩
        | text raw =>
          cases hp : parse raw with
          | none =>
            have hA : POST_route parse env destination startDate endDate =
                repairPhase isItineraryJson parse env raw := by
              simp [POST_route, hm, h0, hp]
            have hB : POST_part000 parse env destination startDate endDate =
                repairPhase jsTruthy parse env raw := by
              simp [POST_part000, hm, h0, hp]
            rw [hA, hB, repairPhase_accept_eq parse env raw H]
            exact ⟨resultAgrees_refl _, rfl⟩
          | some j =>
            cases ht : jsTruthy j with
            | true =>
              have hv : isItineraryJson j = true := H _ j hp ht
              have hA : POST_route parse env destination startDate endDate =
                  mdPhase env 1 j [.initialJson] := by
                simp [POST_route, hm, h0, hp, hv]
              have hB : POST_part000 parse env destination startDate endDate =
                  mdPhase env 1 j [.initialJson] := by
                simp [POST_part000, hm, h0, hp, ht]
              rw [hA, hB]
              exact ⟨resultAgrees_refl _, rfl⟩
            | false =>
              have hv : isItineraryJson j = false := by
                rw [accept_eq_of (H _ j hp)]
                exact ht
              have hA : POST_route parse env destination startDate endDate =
                  repairPhase isItineraryJson parse env raw := by
                simp [POST_route, hm, h0, hp, hv]
              have hB : POST_part000 parse env destination startDate endDate =
                  repairPhase jsTruthy parse env raw := by
                simp [POST_part000, hm, h0, hp, ht]
              rw [hA, hB, repairPhase_accept_eq parse env raw H]
              exact ⟨resultAgrees_refl _, rfl⟩

/-- C10 witness: on a run where the only parsed candidate is the shape-valid
`jDoc`, the two variants produce the same result and calls. -/
theorem c10_variants_agree_witness :
    resultAgrees (POST_route parseDoc envAlphaMd
        (some "Tokyo") (some "2025-05-01") (some "2025-05-05")).1
      (POST_part000 parseDoc envAlphaMd
        (some "Tokyo") (some "2025-05-01") (some "2025-05-05")).1 ∧
    (POST_route parseDoc envAlphaMd
        (some "Tokyo") (some "2025-05-01") (some "2025-05-05")).2 =
      (POST_part000 parseDoc envAlphaMd
        (some "Tokyo") (some "2025-05-01") (some "2025-05-05")).2 :=
  c10_variants_agree parseDoc envAlphaMd
    (some "Tokyo") (some "2025-05-01") (some "2025-05-05")
    (by
      intro s j hp ht
      unfold parseDoc at hp
      by_cases hs : s = "alpha"
      · rw [if_pos hs] at hp
        cases hp
        decide
      · rw [if_neg hs] at hp
        cases hp)

/-- C10 counterexample: with first-call content parsing to the truthy but
shape-invalid object `jBad` and a second response "mdtext", route.ts treats
the candidate as unparsed (repair, then degraded fallback with
itineraryJson = null), while part_000 accepts it (itineraryJson = `jBad`) —
the two variants do not produce the same result. -/
theorem c10_counterexample :
    (POST_route parseBad envAlphaMd
        (some "Tokyo") (some "2025-05-01") (some "2025-05-05")).1.itinJson = none ∧
    (POST_part000 parseBad envAlphaMd
        (some "Tokyo") (some "2025-05-01") (some "2025-05-05")).1.itinJson =
      some jBad ∧
    ¬ resultAgrees (POST_route parseBad envAlphaMd
        (some "Tokyo") (some "2025-05-01") (some "2025-05-05")).1
      (POST_part000 parseBad envAlphaMd
        (some "Tokyo") (some "2025-05-01") (some "2025-05-05")).1 := by
  refine ⟨rfl, rfl, ?_⟩
  have hr : (POST_route parseBad envAlphaMd
      (some "Tokyo") (some "2025-05-01") (some "2025-05-05")).1 =
    PlanResult.ok none "alpha" (some "JSON parse failed") := rfl
  have hp : (POST_part000 parseBad envAlphaMd
      (some "Tokyo") (some "2025-05-01") (some "2025-05-05")).1 =
    PlanResult.ok (some jBad) "mdtext" none := rfl
  rw [hr, hp]
  simp [resultAgrees]

end Itinerary
